import Mathlib

/-!
# Verification of the `Finder` closest-location pipeline and the voting intent

A shallow embedding of `src/mycity/mycity/utilities/Finder/Finder.py` and
`src/mycity/mycity/intents/voting_intent.py`.

Python dictionaries are modelled as association lists over `String` keys with
heterogeneous values (`Val`); `d[k]` is first-occurrence lookup and raises
`KeyError` when absent, which the embedding returns as `Except PyErr`.
The Python `str.format` method on a template with named placeholders is modelled by
`Template` (alternating literal and field parts).  Fallible Python code is
embedded in `Except PyErr`.
-/

set_option autoImplicit false

namespace MyCity

/-- The Python exception kinds that the embedded code can raise. -/
inductive PyErr where
  | keyError : PyErr
  | valueError : PyErr
  | nameError : PyErr
  | typeError : PyErr
deriving DecidableEq, Repr

/-- A Python dictionary value: the records hold strings (addresses, names)
and the driving-info dictionaries hold a numeric distance. -/
inductive Val where
  | str : String → Val
  | num : Int → Val
deriving DecidableEq, Repr

/-- The Python `str(v)` conversion for the values that can appear in a formatted template. -/
def Val.toStr : Val → String
  | Val.str s => s
  | Val.num n => toString n

/-- A Python dict, modelled as an association list; keys are unique in every
dict the source code builds, and lookup is first-occurrence. -/
abbrev Dict : Type := List (String × Val)

/-- Lookup `d[k]` as a total function: `some v` when the key is bound, `none` when
Python would raise `KeyError`. -/
def pyGet (d : Dict) (k : String) : Option Val :=
  match d with
  | [] => none
  | (k', v) :: rest => if k' = k then some v else pyGet rest k

/-- The Python merge `{**r, **d}`: a fresh dict holding the keys of `r` in order, with
the values of `d` where `d` rebinds them, followed by the keys only `d` binds. -/
def dictUpdate (r d : Dict) : Dict :=
  (List.map (fun p => match pyGet d p.1 with
    | some v => (p.1, v)
    | none => p) r)
  ++ List.filter (fun p => (pyGet r p.1).isNone) d

/-- One piece of a Python format string: a literal run or a `{field}`. -/
inductive Part where
  | lit : String → Part
  | field : String → Part
deriving DecidableEq, Repr

/-- A Python format string with named placeholders. -/
abbrev Template : Type := List Part

/-- The Python call `template.format(**keys)`: substitute every `{field}` from `keys`,
raising `KeyError` on the first placeholder that `keys` does not bind. -/
def formatTemplate (t : Template) (keys : Dict) : Except PyErr String :=
  match t with
  | [] => Except.ok ""
  | Part.lit s :: rest => Except.map (fun out => s ++ out) (formatTemplate rest keys)
  | Part.field f :: rest =>
    match pyGet keys f with
    | some v => Except.map (fun out => Val.toStr v ++ out) (formatTemplate rest keys)
    | none => Except.error PyErr.keyError

/-- The constant `Finder.ERROR_MESSAGE` (Finder.py line 25). -/
def ERROR_MESSAGE : String := "Uh oh. Something went wrong!"

/-- Modelled from the spec: `google_maps_utils.DRIVING_DISTANCE_VALUE_KEY`,
the field name under which the distance client stores the numeric distance
value (the `google_maps_utils` module is not part of the sources; no claim
depends on the literal value of this constant). -/
def DRIVING_DISTANCE_VALUE_KEY : String := "Driving distance"

/-- The method `Finder.set_output_speech` (Finder.py lines 87-95): formats the stored
speech template with `format_keys`.  The `except KeyError` clause assigns the
bare name `ERROR_MESSAGE`, which is a class attribute and not in scope inside
the method, so evaluating it raises `NameError`; the embedding therefore turns
an internal `KeyError` into an escaping `NameError`, leaving the stored speech
unchanged (the assignment never happens). -/
def set_output_speech (output_speech : Template) (format_keys : Dict) :
    Except PyErr Template :=
  match formatTemplate output_speech format_keys with
  | Except.ok s => Except.ok [Part.lit s]
  | Except.error PyErr.keyError => Except.error PyErr.nameError
  | Except.error e => Except.error e

/-- The method `Finder.get_all_destinations` (Finder.py lines 98-102):
`[record[self.address_key] for record in records]`, raising `KeyError` at the
first record that lacks the address key. -/
def get_all_destinations (address_key : String) : List Dict → Except PyErr (List Val)
  | [] => Except.ok []
  | r :: rs =>
    match pyGet r address_key with
    | some v => Except.map (fun vs => v :: vs) (get_all_destinations address_key rs)
    | none => Except.error PyErr.keyError

/-- The key function of the `min` call in `get_closest_destination`:
`destination[g_maps_utils.DRIVING_DISTANCE_VALUE_KEY]`, which must be a
number for the comparisons `min` performs. -/
def keyOf (d : Dict) : Except PyErr Int :=
  match pyGet d DRIVING_DISTANCE_VALUE_KEY with
  | some (Val.num n) => Except.ok n
  | some (Val.str _) => Except.error PyErr.typeError
  | none => Except.error PyErr.keyError

/-- The distance value of a driving-info dict, defaulting to `0`; only used
in statements under the hypothesis that `keyOf` succeeds. -/
def distOf (d : Dict) : Int :=
  match pyGet d DRIVING_DISTANCE_VALUE_KEY with
  | some (Val.num n) => n
  | _ => 0

/-- The iteration of the Python `min(..., key=...)` builtin after the first element:
keeps the current best and replaces it only on a strictly smaller key. -/
def minGo (best : Dict) (bk : Int) : List Dict → Except PyErr Dict
  | [] => Except.ok best
  | d :: ds =>
    match keyOf d with
    | Except.error e => Except.error e
    | Except.ok k => if k < bk then minGo d k ds else minGo best bk ds

/-- The method `Finder.get_closest_destination` (Finder.py lines 115-121):
`min(destination_dictionaries, key=lambda destination: destination[DRIVING_DISTANCE_VALUE_KEY])`.
the Python `min` builtin raises `ValueError` on an empty sequence. -/
def get_closest_destination : List Dict → Except PyErr Dict
  | [] => Except.error PyErr.valueError
  | d :: ds =>
    match keyOf d with
    | Except.error e => Except.error e
    | Except.ok k => minGo d k ds

/-- The method `Finder.get_closest_record_with_driving_info` (Finder.py lines 124-139):
scans `records` in order, returning `{**record, **driving_info}` for the first
record whose address field equals the address field of the driving info;
falls off the loop with the implicit Python `None` (embedded as `ok none`) when nothing
matches. -/
def get_closest_record_with_driving_info (address_key : String)
    (driving_info : Dict) : List Dict → Except PyErr (Option Dict)
  | [] => Except.ok none
  | r :: rs =>
    match pyGet driving_info address_key with
    | none => Except.error PyErr.keyError
    | some dv =>
      match pyGet r address_key with
      | none => Except.error PyErr.keyError
      | some rv =>
        if dv = rv then Except.ok (some (dictUpdate r driving_info))
        else get_closest_record_with_driving_info address_key driving_info rs

/-- The caller-supplied `output_speech_prep_func`.  A Python function called
on a dict may both mutate its argument in place and return a value, so the
embedding carries two components: `eff d` is the state of the argument object
after the call, `ret d` is the value the function returns. -/
structure PrepFunc where
  eff : Dict → Dict
  ret : Dict → Dict

/-- The rendering tail of `Finder._start` (Finder.py lines 75-76):
`formatted_record = self.field_formatter(closest_record)` followed by
`self.set_output_speech(closest_record)` — the return value of the formatter is
bound and then discarded, and the template is formatted with the
`closest_record` object itself (as possibly mutated in place by the
formatter). -/
def render_closest (f : PrepFunc) (closest_record : Dict) (speech : Template) :
    Except PyErr Template :=
  let closest_record' := f.eff closest_record
  let _formatted_record := f.ret closest_record
  set_output_speech speech closest_record'

/-- The rendering step as the words of the spec state it, for comparison with
`render_closest`: apply the field-preparation function to the merged record
and format the template with the result of that preparation. -/
def render_closest_spec (f : PrepFunc) (closest_record : Dict) (speech : Template) :
    Except PyErr Template :=
  set_output_speech speech (f.ret closest_record)

/-- The method `Finder._start` (Finder.py lines 61-77), parametric over the collaborators
that live outside the sources: `augment` is `add_city_and_state_to_records`
applied to one record (`csv_utils` is not in the sources; the spec says it
adds fixed city/state fields to every record), and `drivingInfoFn` is
the call of `get_driving_times_to_destinations` into the distance client.  The rest
follows the source line by line; when reconciliation returns the implicit
Python `None`, the subsequent subscripting of `None` inside the formatter
or `str.format` raises `TypeError`. -/
def finder_start (augment : Dict → Dict)
    (drivingInfoFn : List Val → Except PyErr (List Dict)) (f : PrepFunc)
    (address_key : String) (speech : Template) (records : List Dict) :
    Except PyErr Template :=
  let records := List.map augment records
  match get_all_destinations address_key records with
  | Except.error e => Except.error e
  | Except.ok destinations =>
    match drivingInfoFn destinations with
    | Except.error e => Except.error e
    | Except.ok driving_times =>
      match get_closest_destination driving_times with
      | Except.error e => Except.error e
      | Except.ok closest_dest =>
        match get_closest_record_with_driving_info address_key closest_dest
            records with
        | Except.error e => Except.error e
        | Except.ok none => Except.error PyErr.typeError
        | Except.ok (some closest_record) => render_closest f closest_record speech

/-- The function `get_closest_record_with_driving_info` with the state of its inputs
threaded explicitly: the result is paired with the post-call state of the
`driving_info` dict and of the `records` list.  The body performs only
lookups and the fresh-dict construction `{**record, **driving_info}`, so the
embedding records that no input dict is written. -/
def reconcileFrame (address_key : String) (driving_info : Dict) :
    List Dict → Except PyErr (Option Dict) × Dict × List Dict
  | [] => (Except.ok none, driving_info, [])
  | r :: rs =>
    match pyGet driving_info address_key with
    | none => (Except.error PyErr.keyError, driving_info, r :: rs)
    | some dv =>
      match pyGet r address_key with
      | none => (Except.error PyErr.keyError, driving_info, r :: rs)
      | some rv =>
        if dv = rv then
          (Except.ok (some (dictUpdate r driving_info)), driving_info, r :: rs)
        else
          match reconcileFrame address_key driving_info rs with
          | (res, info', rs') => (res, info', r :: rs')

/-- The constant `intent_constants.CURRENT_ADDRESS_KEY`.  Modelled from the spec: "a fixed
constant identifying current address" (the `intent_constants` module is not
part of the sources; no claim depends on the literal value). -/
def CURRENT_ADDRESS_KEY : String := "currentAddress"

/-- The constant `CARD_TITLE` (voting_intent.py line 14). -/
def CARD_TITLE : String := "Voting Intent"

/-- Modelled from the spec: `MyCityResponseDataModel` — "a response object
with fields: output speech (string), optional reprompt text, a card title,
and a session-termination flag" (the class itself is not in the sources).
Fields that a handler never assigns keep their defaults. -/
structure MyCityResponseDataModel where
  output_speech : Option String := none
  reprompt_text : Option String := none
  card_title : Option String := none
  should_end_session : Bool := false
deriving DecidableEq, Repr

/-- The origin-address computation of `get_polling_location`
(voting_intent.py lines 31-33): the session lookup (`KeyError` when the
current-address key is absent) followed by `+= ", Boston, MA"` (`TypeError`
in Python when the stored session value is not a string).  The result is the
exact string handed to geocoding. -/
def polling_origin_address (session_attributes : Dict) : Except PyErr String :=
  match pyGet session_attributes CURRENT_ADDRESS_KEY with
  | none => Except.error PyErr.keyError
  | some (Val.num _) => Except.error PyErr.typeError
  | some (Val.str a) => Except.ok (a ++ ", Boston, MA")

/-- The handler `get_polling_location` (voting_intent.py lines 17-45), parametric over the
external collaborators (`arcgis_utils`, `vote_utils`, the `LOCATION_SPEECH`
constant), which are not in the sources.  The session lookup, the
`", Boston, MA"` suffix, the two `poll_location[...]` lookups and every
response-field assignment follow the source line by line; `+=` on a
non-string session value would raise `TypeError` in Python. -/
def get_polling_location (geocode : String → List Val)
    (topCandidate : List Val → Val) (wardPrecinct : Val → Dict)
    (pollLocation : Dict → Dict) (locationSpeech : Val → Val → String)
    (session_attributes : Dict) : Except PyErr MyCityResponseDataModel :=
  match polling_origin_address session_attributes with
  | Except.error e => Except.error e
  | Except.ok current_address =>
    let candidates := geocode current_address
    let top_candidate := topCandidate candidates
    let ward_precinct := wardPrecinct top_candidate
    let poll_location := pollLocation ward_precinct
    match pyGet poll_location "Location Name" with
    | none => Except.error PyErr.keyError
    | some location_name =>
      match pyGet poll_location "Location Address" with
      | none => Except.error PyErr.keyError
      | some location_address =>
        let output_speech := locationSpeech location_name location_address
        let mycity_response : MyCityResponseDataModel := {}
        let mycity_response :=
          { mycity_response with output_speech := some output_speech }
        let mycity_response := { mycity_response with reprompt_text := none }
        let mycity_response :=
          { mycity_response with reprompt_text := some CARD_TITLE }
        let mycity_response :=
          { mycity_response with should_end_session := true }
        Except.ok mycity_response

/-! ## Lookup lemmas for the dict model -/

theorem pyGet_append (a b : Dict) (k : String) :
    pyGet (a ++ b) k = if (pyGet a k).isSome then pyGet a k else pyGet b k := by
  induction a with
  | nil => simp [pyGet]
  | cons p a ih =>
    obtain ⟨k', v⟩ := p
    by_cases h : k' = k <;> simp [pyGet, h, ih]

theorem pyGet_map_override (r d : Dict) (k : String) :
    pyGet (List.map (fun p => match pyGet d p.1 with
      | some v => (p.1, v)
      | none => p) r) k =
    Option.map (fun v => (pyGet d k).getD v) (pyGet r k) := by
  induction r with
  | nil => simp [pyGet]
  | cons p r ih =>
    obtain ⟨k', v'⟩ := p
    by_cases h : k' = k
    · subst h
      cases hd : pyGet d k' <;> simp [pyGet, hd, ih]
    · cases hd : pyGet d k' <;> simp [pyGet, hd, h, ih]

theorem pyGet_filter_unbound (r d : Dict) (k : String) :
    pyGet (List.filter (fun p => (pyGet r p.1).isNone) d) k =
    if (pyGet r k).isSome then none else pyGet d k := by
  induction d with
  | nil => simp [pyGet]
  | cons p d ih =>
    obtain ⟨k1, v1⟩ := p
    by_cases hk : k1 = k
    · subst hk
      cases h : pyGet r k1 <;> simp [List.filter, pyGet, h, ih]
    · cases h : pyGet r k1 <;> simp [List.filter, pyGet, h, hk, ih]

/-- Lookup in `{**r, **d}`: the value from `d` when `d` binds the key, else
the value from `r`. -/
theorem pyGet_dictUpdate (r d : Dict) (k : String) :
    pyGet (dictUpdate r d) k = if (pyGet d k).isSome then pyGet d k else pyGet r k := by
  unfold dictUpdate
  rw [pyGet_append, pyGet_map_override, pyGet_filter_unbound]
  cases hd : pyGet d k <;> cases hr : pyGet r k <;> simp [Option.getD]

/-! ## Claims about output-speech rendering -/

/-- C3: the claim fails as a code bug.  On a merged record missing a field the
speech template references, `set_output_speech` does not store the fixed
apology string `ERROR_MESSAGE`: the `except KeyError` handler reads the bare
name `ERROR_MESSAGE`, which is a class attribute and undefined in the method
scope, so the handler itself raises `NameError` to the caller and the stored
speech is never replaced. -/
theorem set_output_speech_missing_field_raises :
    set_output_speech [Part.field "Location Name"] [] =
      Except.error PyErr.nameError ∧
    set_output_speech [Part.field "Location Name"] [] ≠
      Except.ok [Part.lit ERROR_MESSAGE] := by
  constructor
  · rfl
  · intro h
    exact Except.noConfusion h

/-- C5: the claim fails as a code bug.  When no record matches the address of
the selected driving info, `get_closest_record_with_driving_info` falls off
its loop and returns the implicit Python `None` (here `ok none`): a silent
`None`, not the explicit "no matching record" error the spec requires. -/
theorem get_closest_record_no_match_silent_none :
    get_closest_record_with_driving_info "Address"
      [("Address", Val.str "10 Main St"), (DRIVING_DISTANCE_VALUE_KEY, Val.num 4)]
      [[("Address", Val.str "5 Main St")]] = Except.ok none := by
  rfl

/-- C10: `get_closest_record_with_driving_info` builds its merged result as a
fresh dict.  In the state-threaded embedding `reconcileFrame`, which returns
the post-call state of the driving-info dict and of every record alongside
the result, both inputs come back exactly as they went in, and the result
agrees with the direct embedding. -/
theorem reconcileFrame_inputs_unchanged (address_key : String)
    (driving_info : Dict) (records : List Dict) :
    (reconcileFrame address_key driving_info records).2.1 = driving_info ∧
    (reconcileFrame address_key driving_info records).2.2 = records ∧
    (reconcileFrame address_key driving_info records).1 =
      get_closest_record_with_driving_info address_key driving_info records := by
  induction records with
  | nil => exact ⟨rfl, rfl, rfl⟩
  | cons r rs ih =>
    obtain ⟨ih1, ih2, ih3⟩ := ih
    cases hd : pyGet driving_info address_key with
    | none =>
      simp [reconcileFrame, get_closest_record_with_driving_info, hd]
    | some dv =>
      cases hr : pyGet r address_key with
      | none =>
        simp [reconcileFrame, get_closest_record_with_driving_info, hd, hr]
      | some rv =>
        by_cases hev : dv = rv
        · simp [reconcileFrame, get_closest_record_with_driving_info, hd, hr, hev]
        · simp only [reconcileFrame, get_closest_record_with_driving_info, hd, hr,
            if_neg hev]
          exact ⟨ih1, by rw [ih2], ih3⟩

/-! ## Claims about closest-destination selection -/

theorem distOf_eq_of_keyOf {d : Dict} {n : Int}
    (h : keyOf d = Except.ok n) : distOf d = n := by
  unfold keyOf at h
  unfold distOf
  cases hp : pyGet d DRIVING_DISTANCE_VALUE_KEY with
  | none => rw [hp] at h; exact Except.noConfusion h
  | some v =>
    cases v with
    | str s => rw [hp] at h; exact Except.noConfusion h
    | num m =>
      rw [hp] at h
      exact Except.ok.inj h

/-- The loop invariant of the `min` iteration: over driving-info dicts whose
distance key holds a number, `minGo best bk ds` succeeds and returns the
first element of `best :: ds` attaining the minimum distance: strictly
smaller than everything before it, no larger than everything after it. -/
theorem minGo_first_min (ds : List Dict) : ∀ (best : Dict) (bk : Int),
    keyOf best = Except.ok bk →
    (∀ d ∈ ds, ∃ n, keyOf d = Except.ok n) →
    ∃ r pre post, minGo best bk ds = Except.ok r ∧
      best :: ds = pre ++ r :: post ∧
      (∀ d ∈ pre, distOf r < distOf d) ∧
      (∀ d ∈ post, distOf r ≤ distOf d) := by
  induction ds with
  | nil =>
    intro best bk hb _
    exact ⟨best, [], [], rfl, rfl, by simp, by simp⟩
  | cons d ds ih =>
    intro best bk hb hall
    obtain ⟨k, hk⟩ := hall d (by simp)
    have hdb : distOf best = bk := distOf_eq_of_keyOf hb
    have hdd : distOf d = k := distOf_eq_of_keyOf hk
    by_cases hlt : k < bk
    · obtain ⟨r, pre, post, hrun, hdec, hpre, hpost⟩ :=
        ih d k hk (fun x hx => hall x (by simp [hx]))
      have hrle : distOf r ≤ k := by
        cases pre with
        | nil =>
          have hdr : d = r := by simpa using congrArg (fun l => List.head? l) hdec
          exact le_of_eq (by rw [← hdr, hdd])
        | cons q pre1 =>
          have hq : q = d := by
            simpa using (congrArg (fun l => List.head? l) hdec).symm
          have := hpre q (by simp)
          rw [hq, hdd] at this
          exact le_of_lt this
      refine ⟨r, best :: pre, post, ?_, ?_, ?_, hpost⟩
      · simp [minGo, hk, hlt, hrun]
      · simpa using congrArg (fun l => best :: l) hdec
      · intro x hx
        rcases List.mem_cons.mp hx with hx | hx
        · rw [hx, hdb]
          exact lt_of_le_of_lt hrle hlt
        · exact hpre x hx
    · obtain ⟨r, pre, post, hrun, hdec, hpre, hpost⟩ :=
        ih best bk hb (fun x hx => hall x (by simp [hx]))
      have hrun2 : minGo best bk (d :: ds) = minGo best bk ds := by
        simp [minGo, hk, hlt]
      cases pre with
      | nil =>
        have hbest : best = r := by
          simpa using congrArg (fun l => List.head? l) hdec
        have hds : ds = post := by
          simpa using congrArg (fun l => List.tail l) hdec
        refine ⟨r, [], d :: post, by rw [hrun2, hrun], ?_, by simp, ?_⟩
        · rw [← hbest, ← hds]
          rfl
        · intro x hx
          rcases List.mem_cons.mp hx with hx | hx
          · rw [hx, hdd, ← hbest, hdb]
            exact le_of_not_lt hlt
          · exact hpost x hx
      | cons q pre1 =>
        have hq : q = best := by
          simpa using (congrArg (fun l => List.head? l) hdec).symm
        have hds : ds = pre1 ++ r :: post := by
          simpa using congrArg (fun l => List.tail l) hdec
        have hrbest : distOf r < distOf best := by
          have := hpre q (by simp)
          rwa [hq] at this
        refine ⟨r, best :: d :: pre1, post, by rw [hrun2, hrun], ?_, ?_, hpost⟩
        · simp [hds]
        · intro x hx
          rcases List.mem_cons.mp hx with hx | hx
          · rw [hx]; exact hrbest
          · rcases List.mem_cons.mp hx with hx | hx
            · rw [hx, hdd]
              exact lt_of_lt_of_le (hrbest.trans_le (hdb.le)) (le_of_not_lt hlt)
            · exact hpre x (by simp [hx])

/-- C1: on a non-empty list of driving-info dicts each holding a numeric
distance value, `get_closest_destination` returns an element of the input
with the global-minimum distance, and in particular the first element in
input order attaining that minimum (every earlier element is strictly
farther, every later one no closer). -/
theorem get_closest_destination_first_min (infos : List Dict)
    (hne : infos ≠ [])
    (hall : ∀ d ∈ infos, ∃ n, keyOf d = Except.ok n) :
    ∃ r pre post, get_closest_destination infos = Except.ok r ∧
      infos = pre ++ r :: post ∧
      (∀ d ∈ infos, distOf r ≤ distOf d) ∧
      (∀ d ∈ pre, distOf r < distOf d) ∧
      (∀ d ∈ post, distOf r ≤ distOf d) := by
  cases infos with
  | nil => exact absurd rfl hne
  | cons d ds =>
    obtain ⟨k, hk⟩ := hall d (by simp)
    obtain ⟨r, pre, post, hrun, hdec, hpre, hpost⟩ :=
      minGo_first_min ds d k hk (fun x hx => hall x (by simp [hx]))
    refine ⟨r, pre, post, by simp [get_closest_destination, hk, hrun], hdec, ?_,
      hpre, hpost⟩
    intro x hx
    rw [hdec] at hx
    rcases List.mem_append.mp hx with hx | hx
    · exact le_of_lt (hpre x hx)
    · rcases List.mem_cons.mp hx with hx | hx
      · rw [hx]
      · exact hpost x hx

/-- Witness for C1 at a concrete input with a tie: the second element wins
over the equal-distance third one and over the farther first one. -/
theorem get_closest_destination_first_min_witness :
    ([[(DRIVING_DISTANCE_VALUE_KEY, Val.num 5)],
      [(DRIVING_DISTANCE_VALUE_KEY, Val.num 3)],
      [(DRIVING_DISTANCE_VALUE_KEY, Val.num 3)]] : List Dict) ≠ [] ∧
    (∃ r pre post,
      get_closest_destination
        [[(DRIVING_DISTANCE_VALUE_KEY, Val.num 5)],
         [(DRIVING_DISTANCE_VALUE_KEY, Val.num 3)],
         [(DRIVING_DISTANCE_VALUE_KEY, Val.num 3)]] = Except.ok r ∧
      ([[(DRIVING_DISTANCE_VALUE_KEY, Val.num 5)],
        [(DRIVING_DISTANCE_VALUE_KEY, Val.num 3)],
        [(DRIVING_DISTANCE_VALUE_KEY, Val.num 3)]] : List Dict) =
          pre ++ r :: post ∧
      (∀ d ∈ ([[(DRIVING_DISTANCE_VALUE_KEY, Val.num 5)],
        [(DRIVING_DISTANCE_VALUE_KEY, Val.num 3)],
        [(DRIVING_DISTANCE_VALUE_KEY, Val.num 3)]] : List Dict),
          distOf r ≤ distOf d) ∧
      (∀ d ∈ pre, distOf r < distOf d) ∧
      (∀ d ∈ post, distOf r ≤ distOf d)) := by
  constructor
  · simp
  · refine get_closest_destination_first_min _ (by simp) ?_
    intro d hd
    simp only [List.mem_cons, List.not_mem_nil, or_false] at hd
    rcases hd with hd | hd | hd
    · exact ⟨5, by rw [hd]; rfl⟩
    · exact ⟨3, by rw [hd]; rfl⟩
    · exact ⟨3, by rw [hd]; rfl⟩

/-! ## Claims about reconciliation -/

/-- C2: when the driving info holds address value `a` under the address key,
every record binds the address key, and some record binds it to `a`,
`get_closest_record_with_driving_info` returns the first such record in list
order merged with the driving info via `{**record, **driving_info}`; every
driving-info field is present in the result (overriding the record on
collision), and keys the driving info does not bind keep the value of the
record. -/
theorem get_closest_record_merges_first_match (address_key : String)
    (driving_info : Dict) (a : Val)
    (hinfo : pyGet driving_info address_key = some a) :
    ∀ records : List Dict,
    (∀ r ∈ records, (pyGet r address_key).isSome) →
    (∃ r ∈ records, pyGet r address_key = some a) →
    ∃ pre r post, records = pre ++ r :: post ∧
      pyGet r address_key = some a ∧
      (∀ q ∈ pre, pyGet q address_key ≠ some a) ∧
      get_closest_record_with_driving_info address_key driving_info records =
        Except.ok (some (dictUpdate r driving_info)) ∧
      (∀ k v, pyGet driving_info k = some v →
        pyGet (dictUpdate r driving_info) k = some v) ∧
      (∀ k, pyGet driving_info k = none →
        pyGet (dictUpdate r driving_info) k = pyGet r k) := by
  intro records
  induction records with
  | nil =>
    intro _ hm
    simp at hm
  | cons r rs ih =>
    intro hkeys hm
    have hr : (pyGet r address_key).isSome := hkeys r (by simp)
    obtain ⟨rv, hrv⟩ := Option.isSome_iff_exists.mp hr
    by_cases heq : a = rv
    · refine ⟨[], r, rs, by simp, ?_, by simp, ?_, ?_, ?_⟩
      · rw [hrv, ← heq]
      · simp [get_closest_record_with_driving_info, hinfo, hrv, heq]
      · intro k v hk
        rw [pyGet_dictUpdate, hk]
        simp
      · intro k hk
        rw [pyGet_dictUpdate, hk]
        simp
    · have hm2 : ∃ q ∈ rs, pyGet q address_key = some a := by
        rcases hm with ⟨q, hq, hqa⟩
        rcases List.mem_cons.mp hq with h1 | h1
        · exfalso
          rw [h1, hrv] at hqa
          exact heq (Option.some.inj hqa).symm
        · exact ⟨q, h1, hqa⟩
      obtain ⟨pre, q, post, hdec, hqa, hpre, hrun, hover, hkeep⟩ :=
        ih (fun x hx => hkeys x (by simp [hx])) hm2
      refine ⟨r :: pre, q, post, by simp [hdec], hqa, ?_, ?_, hover, hkeep⟩
      · intro x hx
        rcases List.mem_cons.mp hx with h1 | h1
        · rw [h1, hrv]
          intro hc
          exact heq (Option.some.inj hc).symm
        · exact hpre x h1
      · simp only [get_closest_record_with_driving_info, hinfo, hrv]
        rw [if_neg heq]
        exact hrun

/-- Witness for C2: the driving info for "20 Main St" is merged onto the
second record, the driving-distance field is present in the result, and the
colliding address field keeps the driving-info value. -/
theorem get_closest_record_merges_first_match_witness :
    pyGet [("Address", Val.str "20 Main St"),
           (DRIVING_DISTANCE_VALUE_KEY, Val.num 4)] "Address" =
      some (Val.str "20 Main St") ∧
    (∀ r ∈ ([[("Address", Val.str "5 Main St")],
             [("Address", Val.str "20 Main St"), ("Ward", Val.str "3")]] :
        List Dict), (pyGet r "Address").isSome) ∧
    (∃ r ∈ ([[("Address", Val.str "5 Main St")],
             [("Address", Val.str "20 Main St"), ("Ward", Val.str "3")]] :
        List Dict), pyGet r "Address" = some (Val.str "20 Main St")) ∧
    (∃ pre r post,
      ([[("Address", Val.str "5 Main St")],
        [("Address", Val.str "20 Main St"), ("Ward", Val.str "3")]] :
          List Dict) = pre ++ r :: post ∧
      pyGet r "Address" = some (Val.str "20 Main St") ∧
      (∀ q ∈ pre, pyGet q "Address" ≠ some (Val.str "20 Main St")) ∧
      get_closest_record_with_driving_info "Address"
        [("Address", Val.str "20 Main St"),
         (DRIVING_DISTANCE_VALUE_KEY, Val.num 4)]
        [[("Address", Val.str "5 Main St")],
         [("Address", Val.str "20 Main St"), ("Ward", Val.str "3")]] =
        Except.ok (some (dictUpdate r
          [("Address", Val.str "20 Main St"),
           (DRIVING_DISTANCE_VALUE_KEY, Val.num 4)])) ∧
      (∀ k v, pyGet [("Address", Val.str "20 Main St"),
          (DRIVING_DISTANCE_VALUE_KEY, Val.num 4)] k = some v →
        pyGet (dictUpdate r [("Address", Val.str "20 Main St"),
          (DRIVING_DISTANCE_VALUE_KEY, Val.num 4)]) k = some v) ∧
      (∀ k, pyGet [("Address", Val.str "20 Main St"),
          (DRIVING_DISTANCE_VALUE_KEY, Val.num 4)] k = none →
        pyGet (dictUpdate r [("Address", Val.str "20 Main St"),
          (DRIVING_DISTANCE_VALUE_KEY, Val.num 4)]) k = pyGet r k)) := by
  refine ⟨rfl, by decide, by decide, ?_⟩
  exact get_closest_record_merges_first_match "Address"
    [("Address", Val.str "20 Main St"), (DRIVING_DISTANCE_VALUE_KEY, Val.num 4)]
    (Val.str "20 Main St") rfl
    [[("Address", Val.str "5 Main St")],
     [("Address", Val.str "20 Main St"), ("Ward", Val.str "3")]]
    (by decide) (by decide)

/-! ## Claim about the empty record set -/

/-- C4: the claim fails as a code bug.  When the record source yields no
records, the pipeline reaches `min` on the empty driving-info sequence and
the Python `min` builtin raises an uncaught `ValueError`: `_start` surfaces
no explicit "no results" condition.  Stated for any augmentation, any
field formatter and any distance client that maps no destinations to no
driving infos. -/
theorem finder_start_empty_records_raises (augment : Dict → Dict)
    (drivingInfoFn : List Val → Except PyErr (List Dict)) (f : PrepFunc)
    (address_key : String) (speech : Template)
    (h : drivingInfoFn [] = Except.ok []) :
    finder_start augment drivingInfoFn f address_key speech [] =
      Except.error PyErr.valueError := by
  simp [finder_start, get_all_destinations, h, get_closest_destination]

/-- Witness for C4 at a concrete instantiation of the collaborators. -/
theorem finder_start_empty_records_raises_witness :
    (fun (_ : List Val) => (Except.ok [] : Except PyErr (List Dict))) [] =
      Except.ok [] ∧
    finder_start id (fun _ => Except.ok []) ⟨id, id⟩ "Address" [] [] =
      Except.error PyErr.valueError :=
  ⟨rfl, finder_start_empty_records_raises id (fun _ => Except.ok [])
    ⟨id, id⟩ "Address" [] rfl⟩

/-! ## Claims about the rendering step of `_start` -/

/-- C6: counterexample to the claim as stated.  With a field-preparation
function that returns a prepared copy (binding the template field "x")
without mutating its argument, the rendering step of `_start` does not
format the template with the result of the preparation: the spec-worded
rendering succeeds on the prepared record while the code raises (the
formatter return value was discarded and the unprepared record lacks the
field). -/
theorem render_closest_ne_render_closest_spec :
    render_closest ⟨id, fun d => ("x", Val.str "prepared") :: d⟩ []
        [Part.field "x"] ≠
      render_closest_spec ⟨id, fun d => ("x", Val.str "prepared") :: d⟩ []
        [Part.field "x"] ∧
    render_closest ⟨id, fun d => ("x", Val.str "prepared") :: d⟩ []
        [Part.field "x"] = Except.error PyErr.nameError ∧
    render_closest_spec ⟨id, fun d => ("x", Val.str "prepared") :: d⟩ []
        [Part.field "x"] = Except.ok [Part.lit "prepared"] := by
  refine ⟨?_, rfl, rfl⟩
  intro h
  rw [show render_closest ⟨id, fun d => ("x", Val.str "prepared") :: d⟩ []
        [Part.field "x"] = Except.error PyErr.nameError from rfl,
      show render_closest_spec ⟨id, fun d => ("x", Val.str "prepared") :: d⟩ []
        [Part.field "x"] = Except.ok [Part.lit "prepared"] from rfl] at h
  exact Except.noConfusion h

/-- C6 amended: the rendering step of `_start` applies the field-preparation
function to the merged record, discards its return value, and formats the
speech template with the merged-record object itself, i.e. with the record as
mutated in place by the preparation; in particular the result never depends
on the `ret` component of the preparation function. -/
theorem render_closest_formats_mutated_record (f : PrepFunc)
    (closest_record : Dict) (speech : Template) :
    render_closest f closest_record speech =
      set_output_speech speech (f.eff closest_record) ∧
    (∀ g : Dict → Dict,
      render_closest ⟨f.eff, g⟩ closest_record speech =
        render_closest f closest_record speech) :=
  ⟨rfl, fun _ => rfl⟩

/-! ## Claim about destination extraction -/

/-- C7: `get_all_destinations` projects the address field of every record in
input order with one output per record when every record binds the address
key, and raises `KeyError` (fails loudly, no silent skipping) as soon as some
record lacks the key. -/
theorem get_all_destinations_projection (address_key : String)
    (records : List Dict) :
    ((∀ r ∈ records, (pyGet r address_key).isSome) →
      ∃ vs, get_all_destinations address_key records = Except.ok vs ∧
        vs.length = records.length ∧
        ∀ i (hi : i < records.length) (hv : i < vs.length),
          pyGet (records.get ⟨i, hi⟩) address_key = some (vs.get ⟨i, hv⟩)) ∧
    ((∃ r ∈ records, pyGet r address_key = none) →
      get_all_destinations address_key records = Except.error PyErr.keyError) := by
  induction records with
  | nil =>
    constructor
    · intro _
      exact ⟨[], rfl, rfl, fun i hi _ => absurd hi (Nat.not_lt_zero i)⟩
    · intro hm
      simp at hm
  | cons r rs ih =>
    constructor
    · intro hkeys
      obtain ⟨v, hv⟩ := Option.isSome_iff_exists.mp (hkeys r (by simp))
      obtain ⟨vs, hrun, hlen, hidx⟩ := ih.1 (fun x hx => hkeys x (by simp [hx]))
      refine ⟨v :: vs, ?_, by simp [hlen], ?_⟩
      · simp [get_all_destinations, hv, hrun, Except.map]
      · intro i hi hvi
        cases i with
        | zero => simpa using hv
        | succ j =>
          have hj : j < rs.length := Nat.lt_of_succ_lt_succ hi
          have hvj : j < vs.length := Nat.lt_of_succ_lt_succ hvi
          simpa using hidx j hj hvj
    · intro hm
      rcases hm with ⟨q, hq, hqa⟩
      rcases List.mem_cons.mp hq with h1 | h1
      · rw [h1] at hqa
        simp [get_all_destinations, hqa]
      · have herr := ih.2 ⟨q, h1, hqa⟩
        cases hv : pyGet r address_key with
        | none => simp [get_all_destinations, hv]
        | some v => simp [get_all_destinations, hv, herr, Except.map]

/-- Witness for C7: both branches at concrete record lists. -/
theorem get_all_destinations_projection_witness :
    (∀ r ∈ ([[("Address", Val.str "5 Main St")],
             [("Address", Val.str "20 Main St")]] : List Dict),
      (pyGet r "Address").isSome) ∧
    (∃ vs, get_all_destinations "Address"
        [[("Address", Val.str "5 Main St")],
         [("Address", Val.str "20 Main St")]] = Except.ok vs ∧
      vs.length = ([[("Address", Val.str "5 Main St")],
         [("Address", Val.str "20 Main St")]] : List Dict).length ∧
      ∀ i (hi : i < ([[("Address", Val.str "5 Main St")],
          [("Address", Val.str "20 Main St")]] : List Dict).length)
        (hv : i < vs.length),
        pyGet (([[("Address", Val.str "5 Main St")],
          [("Address", Val.str "20 Main St")]] : List Dict).get ⟨i, hi⟩)
          "Address" = some (vs.get ⟨i, hv⟩)) ∧
    (∃ r ∈ ([[("Address", Val.str "5 Main St")], [("Ward", Val.str "3")]] :
        List Dict), pyGet r "Address" = none) ∧
    get_all_destinations "Address"
      [[("Address", Val.str "5 Main St")], [("Ward", Val.str "3")]] =
      Except.error PyErr.keyError := by
  refine ⟨by decide, ?_, by decide, ?_⟩
  · exact (get_all_destinations_projection "Address"
      [[("Address", Val.str "5 Main St")],
       [("Address", Val.str "20 Main St")]]).1 (by decide)
  · exact (get_all_destinations_projection "Address"
      [[("Address", Val.str "5 Main St")], [("Ward", Val.str "3")]]).2
      (by decide)

/-! ## Claims about the voting intent -/

/-- C8: when the session store binds the current-address key to a string `a`,
the origin address handed to geocoding is exactly `a ++ ", Boston, MA"` — in
particular `get_polling_location` cannot distinguish geocoders that agree on
that one string — and when the session lacks the key, the lookup raises
`KeyError` which `get_polling_location` propagates to its caller with no
default. -/
theorem get_polling_location_origin_address (session : Dict) :
    (∀ a, pyGet session CURRENT_ADDRESS_KEY = some (Val.str a) →
      polling_origin_address session = Except.ok (a ++ ", Boston, MA") ∧
      ∀ (g gOther : String → List Val) (tc : List Val → Val) (wp : Val → Dict)
        (pl : Dict → Dict) (ls : Val → Val → String),
        g (a ++ ", Boston, MA") = gOther (a ++ ", Boston, MA") →
        get_polling_location g tc wp pl ls session =
          get_polling_location gOther tc wp pl ls session) ∧
    (pyGet session CURRENT_ADDRESS_KEY = none →
      polling_origin_address session = Except.error PyErr.keyError ∧
      ∀ (g : String → List Val) (tc : List Val → Val) (wp : Val → Dict)
        (pl : Dict → Dict) (ls : Val → Val → String),
        get_polling_location g tc wp pl ls session =
          Except.error PyErr.keyError) := by
  constructor
  · intro a ha
    have hpo : polling_origin_address session =
        Except.ok (a ++ ", Boston, MA") := by
      simp [polling_origin_address, ha]
    refine ⟨hpo, ?_⟩
    intro g gOther tc wp pl ls hg
    simp [get_polling_location, hpo, hg]
  · intro ha
    have hpo : polling_origin_address session = Except.error PyErr.keyError := by
      simp [polling_origin_address, ha]
    exact ⟨hpo, fun g tc wp pl ls => by simp [get_polling_location, hpo]⟩

/-- Witness for C8: a session holding "10 Main St" geocodes
"10 Main St, Boston, MA", and the empty session raises `KeyError` through
`get_polling_location`. -/
theorem get_polling_location_origin_address_witness :
    pyGet [(CURRENT_ADDRESS_KEY, Val.str "10 Main St")] CURRENT_ADDRESS_KEY =
      some (Val.str "10 Main St") ∧
    polling_origin_address [(CURRENT_ADDRESS_KEY, Val.str "10 Main St")] =
      Except.ok ("10 Main St" ++ ", Boston, MA") ∧
    pyGet ([] : Dict) CURRENT_ADDRESS_KEY = none ∧
    polling_origin_address [] = Except.error PyErr.keyError ∧
    get_polling_location (fun s => [Val.str s]) (fun _ => Val.str "")
      (fun _ => []) (fun _ => []) (fun a b => Val.toStr a ++ Val.toStr b) [] =
      Except.error PyErr.keyError :=
  ⟨rfl,
   ((get_polling_location_origin_address
      [(CURRENT_ADDRESS_KEY, Val.str "10 Main St")]).1 "10 Main St" rfl).1,
   rfl,
   ((get_polling_location_origin_address []).2 rfl).1,
   ((get_polling_location_origin_address []).2 rfl).2 (fun s => [Val.str s])
     (fun _ => Val.str "") (fun _ => []) (fun _ => [])
     (fun a b => Val.toStr a ++ Val.toStr b)⟩

/-- C9: every successfully built response of `get_polling_location` has its
reprompt text equal to the card-title constant "Voting Intent" (the `None`
assigned first is immediately overwritten), its card-title field untouched
(equal to the freshly constructed default), and its end-session flag set. -/
theorem get_polling_location_response_fields (geocode : String → List Val)
    (tc : List Val → Val) (wp : Val → Dict) (pl : Dict → Dict)
    (ls : Val → Val → String) (session : Dict)
    (resp : MyCityResponseDataModel)
    (h : get_polling_location geocode tc wp pl ls session = Except.ok resp) :
    resp.reprompt_text = some CARD_TITLE ∧
    CARD_TITLE = "Voting Intent" ∧
    resp.card_title = ({} : MyCityResponseDataModel).card_title ∧
    resp.should_end_session = true := by
  unfold get_polling_location at h
  cases hpo : polling_origin_address session with
  | error e =>
    rw [hpo] at h
    exact Except.noConfusion h
  | ok current =>
    rw [hpo] at h
    cases hn : pyGet (pl (wp (tc (geocode current)))) "Location Name" with
    | none =>
      simp only [hn] at h
      exact Except.noConfusion h
    | some nameVal =>
      cases ha : pyGet (pl (wp (tc (geocode current)))) "Location Address" with
      | none =>
        simp only [hn, ha] at h
        exact Except.noConfusion h
      | some addrVal =>
        simp only [hn, ha] at h
        have hr := Except.ok.inj h
        subst hr
        exact ⟨rfl, rfl, rfl, rfl⟩

/-- Witness for C9 at concrete collaborators and session. -/
theorem get_polling_location_response_fields_witness :
    get_polling_location (fun _ => []) (fun _ => Val.str "") (fun _ => [])
      (fun _ => [("Location Name", Val.str "Curley School"),
                 ("Location Address", Val.str "40 Centre St")])
      (fun a b => Val.toStr a ++ ", " ++ Val.toStr b)
      [(CURRENT_ADDRESS_KEY, Val.str "10 Main St")] =
      Except.ok { output_speech := some "Curley School, 40 Centre St",
                  reprompt_text := some CARD_TITLE,
                  card_title := none,
                  should_end_session := true } ∧
    ((some CARD_TITLE : Option String) = some CARD_TITLE ∧
      CARD_TITLE = "Voting Intent" ∧
      (none : Option String) = ({} : MyCityResponseDataModel).card_title ∧
      true = true) :=
  ⟨rfl,
   get_polling_location_response_fields (fun _ => []) (fun _ => Val.str "")
     (fun _ => [])
     (fun _ => [("Location Name", Val.str "Curley School"),
                ("Location Address", Val.str "40 Centre St")])
     (fun a b => Val.toStr a ++ ", " ++ Val.toStr b)
     [(CURRENT_ADDRESS_KEY, Val.str "10 Main St")]
     { output_speech := some "Curley School, 40 Centre St",
       reprompt_text := some CARD_TITLE,
       card_title := none,
       should_end_session := true } rfl⟩

end MyCity
